import Mathlib

/-!
Verification of the `GitHubSync` controller (src/src/github_sync.py).

The controller holds a configuration (repository name, branch, auto-commit
flag, commit interval) and a run counter persisted to a local file.  Each
public operation is embedded as a pure function of the controller state,
the timestamp (an input, standing for `datetime.now()`), the inputs of the
call, and the responses of the remote platform (an oracle: `none` stands
for a `GithubException` raised by the corresponding remote call).  Every
operation returns its Python return value together with the list of remote
calls it attempted, in order, and the state after the call.

Metric dictionaries (`Dict[str, Any]` of numeric-or-string payloads that
the code only renders into messages) are embedded as association lists
from keys to the rendered text of the stored value.  Real-valued scores
(`baseline`, `current`, `threshold`) are embedded as rationals; Python
raises `ZeroDivisionError` on division by zero, which the embedding of
`create_performance_issue_if_degraded` surfaces as an `Except.error`.
-/

/-- Configuration held by `GitHubSync.__init__`: repository identifier,
branch, auto-commit flag and commit interval. Immutable after construction. -/
structure SyncConfig where
  repo_name : String
  branch : String
  auto_commit : Bool
  commit_interval : Nat
deriving DecidableEq, Repr

/-- Controller state: the configuration, the in-memory `self.run_count`,
and the integer persisted in the local `.github_run_count` file. -/
structure SyncState where
  config : SyncConfig
  run_count : Nat
  counter_file : Nat
deriving DecidableEq, Repr

/-- A remote call attempted against the platform client
(`self.repo.create_file`, `get_contents`, `update_file`, `create_issue`,
`get_branch`, `create_git_ref`, `create_pull`, `pr.create_review_request`). -/
inductive RemoteCall where
  | createFile (path message content branch : String)
  | getContents (path ref : String)
  | updateFile (path message content sha branch : String)
  | createIssue (title body : String) (labels assignees : List String)
  | getBranch (branch : String)
  | createGitRef (ref sha : String)
  | createPull (title body head base : String)
  | createReviewRequest (reviewers : List String)
deriving DecidableEq, Repr

/-- Result of one public operation: the Python return value, the remote
calls attempted in order, and the controller state after the call. -/
structure OpResult (α : Type) where
  ret : α
  calls : List RemoteCall
  state : SyncState
deriving DecidableEq, Repr

/-- A metrics dictionary: keys mapped to the rendered text of the value. -/
abbrev Metrics := List (String × String)

/-- Python `d.get(k, default)` on a metrics dictionary. -/
def dictGet (m : Metrics) (k d : String) : String :=
  (m.lookup k).getD d

/-- Rendering of a metrics dictionary as structured text
(the embedding of `json.dumps(results, indent=2)`). -/
def jsonDumps (m : Metrics) : String :=
  "\x7b " ++ String.intercalate ", " (m.map fun kv => "\"" ++ kv.1 ++ "\": " ++ kv.2) ++ " \x7d"

/-- The serialized `{run_number, timestamp, metrics, log}` record that
`commit_execution_log` commits. -/
def executionLogContent (runNumber : Nat) (ts : String) (metrics : Metrics)
    (logContent : String) : String :=
  "\x7b \"run_number\": " ++ toString runNumber ++ ", \"timestamp\": \"" ++ ts ++
    "\", \"metrics\": " ++ jsonDumps metrics ++ ", \"log\": \"" ++ logContent ++ "\" \x7d"

/-- The commit message built by `commit_execution_log`. -/
def executionLogMessage (runNumber : Nat) (metrics : Metrics) : String :=
  "📊 Auto-commit: Run #" ++ toString runNumber ++ "\n\n" ++
    "- Benchmark Score: " ++ dictGet metrics "benchmark_score" "N/A" ++ "\n" ++
    "- Token Efficiency: " ++ dictGet metrics "token_efficiency" "N/A" ++ "\n" ++
    "- Execution Time: " ++ dictGet metrics "execution_time" "N/A" ++ "\n" ++
    "- Forgetting Score: " ++ dictGet metrics "forgetting_score" "N/A"

/-- The commit message built by `commit_benchmark_results`. -/
def benchmarkMessage (results : Metrics) : String :=
  "🏆 Benchmark Results\n\n" ++
    "- Overall Score: " ++ dictGet results "overall_score" "N/A" ++ "\n" ++
    "- Pass Rate: " ++ dictGet results "pass_rate" "N/A" ++ "\n" ++
    "- Token Efficiency: " ++ dictGet results "token_efficiency" "N/A"

/-- Rounding of a rational to the nearest integer (half away from zero on
ties), computed on the numerator and denominator. -/
def qRound (q : ℚ) : Int :=
  Int.fdiv (2 * q.num + (q.den : Int)) (2 * (q.den : Int))

/-- Python fixed-point formatting `"%.<dec>f" % q` on an exact rational. -/
def fmtFixed (dec : Nat) (q : ℚ) : String :=
  let scaled : Int := qRound (q * (10 : ℚ) ^ dec)
  let sign := if scaled < 0 then "-" else ""
  let n := scaled.natAbs
  let b := (10 : Nat) ^ dec
  let fpStr := toString (n % b)
  sign ++ toString (n / b) ++ "." ++
    String.mk (List.replicate (dec - fpStr.length) '0') ++ fpStr

/-- The one Python exception the embedded operations can raise. -/
inductive PyError where
  | zeroDivisionError
deriving DecidableEq, Repr

/-- `should_commit`: `self.auto_commit and (self.run_count % self.commit_interval == 0)`. -/
def should_commit (st : SyncState) : Bool :=
  st.config.auto_commit && (st.run_count % st.config.commit_interval == 0)

/-- `increment_run`: adds one to `self.run_count`, persists it, returns it. -/
def increment_run (st : SyncState) : Nat × SyncState :=
  let n := st.run_count + 1
  (n, { st with run_count := n, counter_file := n })

/-- `increment_run` called `m` times in sequence: the list of returned
values and the final state. -/
def incrementRuns : Nat → SyncState → List Nat × SyncState
  | 0, st => ([], st)
  | m + 1, st =>
      let r := increment_run st
      let rest := incrementRuns m r.2
      (r.1 :: rest.1, rest.2)

/-- `commit_execution_log(run_number, metrics, log_content)`.  `resp` is the
platform response to `create_file`: `some sha` on success, `none` for a
`GithubException` (caught, logged, converted to `None`). -/
def commit_execution_log (st : SyncState) (runNumber : Nat) (metrics : Metrics)
    (logContent ts : String) (resp : Option String) : OpResult (Option String) :=
  if should_commit st = false then
    ⟨none, [], st⟩
  else
    let filename := "logs/execution_" ++ toString runNumber ++ "_" ++ ts ++ ".json"
    ⟨resp,
     [RemoteCall.createFile filename (executionLogMessage runNumber metrics)
        (executionLogContent runNumber ts metrics logContent) st.config.branch],
     st⟩

/-- `commit_benchmark_results(results)`: unconditionally attempts one
`create_file` at a timestamped path; returns the commit sha or `None`. -/
def commit_benchmark_results (st : SyncState) (results : Metrics) (ts : String)
    (resp : Option String) : OpResult (Option String) :=
  let filename := "benchmarks/results_" ++ ts ++ ".json"
  ⟨resp,
   [RemoteCall.createFile filename (benchmarkMessage results) (jsonDumps results)
      st.config.branch],
   st⟩

/-- The CSV header written when `update_performance_dashboard` creates the file. -/
def dashboardHeader : String :=
  "timestamp,benchmark_score,token_usage,execution_time,forgetting_score\n"

/-- The CSV row appended by `update_performance_dashboard`: timestamp plus
the four numeric fields, each defaulted to `0` when missing. -/
def dashboardRow (metrics : Metrics) (ts : String) : String :=
  ts ++ "," ++ dictGet metrics "benchmark_score" "0" ++ "," ++
    dictGet metrics "token_usage" "0" ++ "," ++
    dictGet metrics "execution_time" "0" ++ "," ++
    dictGet metrics "forgetting_score" "0" ++ "\n"

/-- The well-known dashboard path. -/
def dashboardFile : String := "performance/metrics_history.csv"

/-- `update_performance_dashboard(metrics)`.  `readResp` is the response of
`get_contents` (`some (content, sha)` on success, `none` for any read
failure, caught by the bare `except:`); `updResp` answers `update_file`;
`crResp` answers `create_file`.  A failed update falls into the bare
`except:` and attempts `create_file`; a `GithubException` from either
write is caught by the outer handler and becomes `None`. -/
def update_performance_dashboard (st : SyncState) (metrics : Metrics) (ts : String)
    (readResp : Option (String × String)) (updResp crResp : Option String) :
    OpResult (Option String) :=
  let row := dashboardRow metrics ts
  let readCall := RemoteCall.getContents dashboardFile st.config.branch
  let createCall := RemoteCall.createFile dashboardFile
    "🆕 Initialize performance dashboard" (dashboardHeader ++ row) st.config.branch
  match readResp with
  | some cs =>
      let updCall := RemoteCall.updateFile dashboardFile
        ("📊 Update performance metrics: " ++ ts) (cs.1 ++ row) cs.2 st.config.branch
      match updResp with
      | some sha => ⟨some sha, [readCall, updCall], st⟩
      | none => ⟨crResp, [readCall, updCall, createCall], st⟩
  | none => ⟨crResp, [readCall, createCall], st⟩

/-- The issue title built by `create_performance_issue_if_degraded`,
as a function of the computed degradation percentage. -/
def perfIssueTitle (degradation : ℚ) : String :=
  "⚠️ Performance Degradation Detected: " ++ fmtFixed 1 degradation ++ "% drop"

/-- The issue body built by `create_performance_issue_if_degraded`. -/
def perfIssueBody (baseline current degradation : ℚ) : String :=
  "\n## 성능 저하 감지\n\n" ++
    "**기준 점수**: " ++ fmtFixed 4 baseline ++ "\n" ++
    "**현재 점수**: " ++ fmtFixed 4 current ++ "\n" ++
    "**저하율**: " ++ fmtFixed 2 degradation ++ "%\n\n" ++
    "### 확인 필요 사항\n\n" ++
    "1. 최근 프롬프트 변경사항 검토\n2. 벤치마크 로그 확인\n3. 필요시 롤백 고려\n\n" ++
    "### 자동 조치\n\n" ++
    "- 시스템은 자동으로 이전 버전으로 롤백되었습니다.\n" ++
    "- 성능 로그: `logs/execution_latest.json`\n" ++
    "- 벤치마크 결과: `benchmarks/results_latest.json`\n\n---\n\n" ++
    "*이 이슈는 자동으로 생성되었습니다.*\n        "

/-- `create_performance_issue_if_degraded(baseline, current, threshold)`.
If `current >= baseline - threshold` it returns `None` with no remote
call.  Otherwise Python evaluates `(baseline - current) / baseline * 100`,
which raises `ZeroDivisionError` when `baseline == 0` (uncaught: the only
handler catches `GithubException` around `create_issue`).  `resp` answers
`create_issue` with the new issue number, `none` for a `GithubException`. -/
def create_performance_issue_if_degraded (st : SyncState)
    (baseline current threshold : ℚ) (resp : Option Nat) :
    Except PyError (OpResult (Option Nat)) :=
  if baseline - threshold ≤ current then
    Except.ok ⟨none, [], st⟩
  else if baseline = 0 then
    Except.error PyError.zeroDivisionError
  else
    let degradation := (baseline - current) / baseline * 100
    let call := RemoteCall.createIssue (perfIssueTitle degradation)
      (perfIssueBody baseline current degradation)
      ["bug", "auto-generated", "priority-high"] ["GilbertKwak"]
    Except.ok ⟨resp, [call], st⟩

/-- The pull-request title built by `create_optimization_pull_request`. -/
def prTitle (impr : Metrics) : String :=
  "✨ Auto-optimized prompt: " ++ dictGet impr "improvement" "0.0" ++ "% better"

/-- The pull-request body built by `create_optimization_pull_request`. -/
def prBody (impr : Metrics) : String :=
  "\n## 자동 최적화 결과\n\n이 PR은 성능 분석 기반으로 자동 생성되었습니다.\n\n" ++
    "### 성능 개선\n\n" ++
    "- **벤치마크 점수**: " ++ dictGet impr "benchmark_score" "N/A" ++ "\n" ++
    "- **토큰 효율**: " ++ dictGet impr "token_efficiency" "N/A" ++ "\n" ++
    "- **실행 시간**: " ++ dictGet impr "execution_time" "N/A" ++ "\n\n" ++
    "### 변경 사항\n\n- 프롬프트 최적화\n- 메모리 관리 개선\n- 토큰 절감 기법 적용\n\n" ++
    "### 테스트 결과\n\n✅ OpenEnv-Turing 벤치마크 통과\n✅ 성능 회귀 테스트 통과\n\n---\n\n" ++
    "*이 PR은 자동으로 생성되었습니다. 리뷰 후 병합하세요.*\n            "

/-- Platform responses for the six remote steps of
`create_optimization_pull_request`; `none` means the step raised a
`GithubException`. `readFile` returns the path and sha of the prompt file. -/
structure PrResponses where
  getBranch : Option String
  createRef : Option Unit
  readFile : Option (String × String)
  updateFile : Option String
  createPull : Option Nat
  reviewRequest : Option Unit

/-- `create_optimization_pull_request(optimized_prompt, performance_improvement)`:
six remote steps in sequence inside one `try:`; the first failing step
raises `GithubException`, caught by the single handler, which returns
`None` — nothing after the failing step runs and nothing is rolled back. -/
def create_optimization_pull_request (st : SyncState) (optimizedPrompt : String)
    (impr : Metrics) (ts : String) (o : PrResponses) : OpResult (Option Nat) :=
  let branchName := "auto-optimize-" ++ ts
  let c1 := RemoteCall.getBranch st.config.branch
  match o.getBranch with
  | none => ⟨none, [c1], st⟩
  | some tip =>
    let c2 := RemoteCall.createGitRef ("refs/heads/" ++ branchName) tip
    match o.createRef with
    | none => ⟨none, [c1, c2], st⟩
    | some _ =>
      let c3 := RemoteCall.getContents "prompts/v4.0-complete-integration.xml" branchName
      match o.readFile with
      | none => ⟨none, [c1, c2, c3], st⟩
      | some ps =>
        let c4 := RemoteCall.updateFile ps.1 "✨ Auto-optimized prompt"
          optimizedPrompt ps.2 branchName
        match o.updateFile with
        | none => ⟨none, [c1, c2, c3, c4], st⟩
        | some _ =>
          let c5 := RemoteCall.createPull (prTitle impr) (prBody impr)
            branchName st.config.branch
          match o.createPull with
          | none => ⟨none, [c1, c2, c3, c4, c5], st⟩
          | some prNum =>
            let c6 := RemoteCall.createReviewRequest ["GilbertKwak"]
            match o.reviewRequest with
            | none => ⟨none, [c1, c2, c3, c4, c5, c6], st⟩
            | some _ => ⟨some prNum, [c1, c2, c3, c4, c5, c6], st⟩

/-- Number of data rows of a CSV text: its count of newline characters. -/
def countRows (s : String) : Nat := s.data.count '\n'

/-- A piece of text free of newline characters. -/
def noNL (s : String) : Prop := '\n' ∉ s.data

instance (s : String) : Decidable (noNL s) := by
  unfold noNL; infer_instance

/-- Whether an embedded operation returned normally (no Python exception). -/
def exOk {α : Type} : Except PyError α → Bool
  | Except.ok _ => true
  | Except.error _ => false

/-- A concrete configuration, as built by the constructor with
`auto_commit=False`. -/
def cfgNoAuto : SyncConfig :=
  ⟨"GilbertKwak/ai-multiagent-framework-v4", "main", false, 10⟩

/-- A concrete reachable state: constructed with `auto_commit=False`,
then `increment_run()` once. -/
def stNoAuto : SyncState := ⟨cfgNoAuto, 1, 1⟩

/-- A concrete state with auto-commit on, counter at a multiple of the interval. -/
def stDue : SyncState :=
  ⟨⟨"GilbertKwak/ai-multiagent-framework-v4", "main", true, 10⟩, 20, 20⟩

/-! ### Helper lemmas -/

lemma countRows_append (s t : String) : countRows (s ++ t) = countRows s + countRows t := by
  simp [countRows, String.data_append, List.count_append]

lemma countRows_eq_zero {s : String} (h : noNL s) : countRows s = 0 :=
  List.count_eq_zero.mpr h

lemma countRows_dictGet (m : Metrics) (k : String)
    (hm : ∀ k v, m.lookup k = some v → noNL v) : countRows (dictGet m k "0") = 0 := by
  unfold dictGet
  cases h : m.lookup k with
  | none => decide
  | some v => exact countRows_eq_zero (hm k v h)

lemma countRows_dashboardRow (m : Metrics) (ts : String) (hts : noNL ts)
    (hm : ∀ k v, m.lookup k = some v → noNL v) : countRows (dashboardRow m ts) = 1 := by
  unfold dashboardRow
  simp only [countRows_append, countRows_eq_zero hts, countRows_dictGet m _ hm]
  decide

lemma countRows_dashboardHeader : countRows dashboardHeader = 1 := by decide

lemma dashboardRow_empty (ts : String) : dashboardRow [] ts = ts ++ ",0,0,0,0\n" := by
  simp [dashboardRow, dictGet, String.append_assoc]

lemma incrementRuns_spec : ∀ (m : Nat) (st : SyncState),
    (incrementRuns m st).1 = List.range' (st.run_count + 1) m ∧
    (incrementRuns m st).2.run_count = st.run_count + m ∧
    ((incrementRuns m st).2.counter_file =
      if m = 0 then st.counter_file else st.run_count + m) ∧
    (incrementRuns m st).2.config = st.config
  | 0, st => by simp [incrementRuns]
  | (n + 1), st => by
      obtain ⟨h1, h2, h3, h4⟩ := incrementRuns_spec n
        { st with run_count := st.run_count + 1, counter_file := st.run_count + 1 }
      simp only [incrementRuns, increment_run]
      refine ⟨?_, ?_, ?_, ?_⟩
      · rw [List.range'_succ _ n 1]
        simpa using h1
      · simp only [h2]; omega
      · rw [if_neg (Nat.succ_ne_zero n)]
        by_cases hn : n = 0
        · subst hn; simpa using h3
        · rw [if_neg hn] at h3; simpa [h3] using by omega
      · exact h4

/-! ### Claims -/

/-- Claim C1: `should_commit()` is true iff the auto-commit flag is set and
the run counter is a multiple of the (positive) commit interval; it is a
pure function of the stored state, with no remote call and no state change
(its embedding has type `SyncState → Bool`). -/
theorem should_commit_iff (st : SyncState) (_hk : 0 < st.config.commit_interval) :
    should_commit st = true ↔
      st.config.auto_commit = true ∧ st.run_count % st.config.commit_interval = 0 := by
  simp [should_commit]

theorem should_commit_iff_witness : should_commit stDue = true :=
  (should_commit_iff stDue (by decide)).mpr (by decide)

/-- Claim C2 counterexample: with `baseline = 0`, `current = -1`,
`threshold = 5/100` the degradation branch is taken and Python divides by
`baseline`, raising an uncaught `ZeroDivisionError`: the operation does
raise an exception to the caller. -/
theorem no_uncaught_exception_cex :
    create_performance_issue_if_degraded stDue 0 (-1) (5 / 100) (some 1) =
      Except.error PyError.zeroDivisionError := by
  unfold create_performance_issue_if_degraded
  norm_num

/-- Claim C2 (amended): every public operation converts remote failures to
absent returns and returns normally, except that
`create_performance_issue_if_degraded` raises `ZeroDivisionError` exactly
when `baseline = 0` and `current < baseline - threshold`: it returns
normally iff `baseline ≠ 0` or `current ≥ baseline - threshold`. -/
theorem no_uncaught_exception_amended (st : SyncState) (b c t : ℚ) (resp : Option Nat) :
    exOk (create_performance_issue_if_degraded st b c t resp) = true ↔
      b ≠ 0 ∨ b - t ≤ c := by
  unfold create_performance_issue_if_degraded
  by_cases h1 : b - t ≤ c
  · rw [if_pos h1]
    simp [exOk, h1]
  · rw [if_neg h1]
    by_cases h2 : b = 0
    · rw [if_pos h2]
      exact iff_of_false (by simp [exOk]) (by push_neg; exact ⟨h2, not_le.mp h1⟩)
    · rw [if_neg h2]
      simp [exOk, h2]

/-- Claim C3 counterexample: in a reachable state with `auto_commit = False`
and counter 1 (interval 10), `should_commit` is false and yet
`commit_benchmark_results` attempts a remote write. -/
theorem remote_write_guard_cex :
    should_commit stNoAuto = false ∧
      (commit_benchmark_results stNoAuto [] "2026-01-01T00:00:00" (some "abc")).calls.length = 1 := by
  constructor
  · decide
  · rfl

/-- Claim C3 (amended): only `commit_execution_log` guards its remote write
by `should_commit`: it attempts no remote call unless the counter is a
multiple of the interval with auto-commit enabled, whereas
`commit_benchmark_results` always attempts exactly one remote write. -/
theorem remote_write_guard_amended :
    (∀ (st : SyncState) (rn : Nat) (m : Metrics) (lc ts : String) (resp : Option String),
      0 < st.config.commit_interval → should_commit st = false →
        (commit_execution_log st rn m lc ts resp).calls = []) ∧
    (∀ (st : SyncState) (res : Metrics) (ts : String) (resp : Option String),
      (commit_benchmark_results st res ts resp).calls.length = 1) := by
  constructor
  · intro st rn m lc ts resp _ h
    simp [commit_execution_log, h]
  · intro st res ts resp
    rfl

theorem remote_write_guard_amended_witness :
    (commit_execution_log stNoAuto 1 [] "" "2026-01-01T00:00:00" (some "abc")).calls = [] :=
  remote_write_guard_amended.1 stNoAuto 1 [] "" "2026-01-01T00:00:00" (some "abc")
    (by decide) (by decide)

/-- Claim C4 counterexample: at `baseline = 0`, `current = -2`,
`threshold = 5/100` we have `current < baseline - threshold`, yet the code
raises `ZeroDivisionError` instead of requesting issue creation with a
reported degradation. -/
theorem degradation_issue_cex :
    ((-2 : ℚ) < 0 - 5 / 100) ∧
      create_performance_issue_if_degraded stDue 0 (-2) (5 / 100) (some 7) =
        Except.error PyError.zeroDivisionError := by
  constructor
  · norm_num
  · unfold create_performance_issue_if_degraded
    norm_num

/-- Claim C4 (amended): for every `baseline ≠ 0`:
`create_performance_issue_if_degraded` returns absent with no remote call
when `current ≥ baseline - threshold`, and otherwise requests creation of
one issue whose title and body report the degradation
`(baseline - current) / baseline * 100`; in particular
`baseline = 1, current = 0.96, threshold = 0.05` yields absent and
`baseline = 1, current = 0.90, threshold = 0.05` yields an issue request
reporting a `10.0%` drop. -/
theorem degradation_issue_amended :
    (∀ (st : SyncState) (b c t : ℚ) (resp : Option Nat), b ≠ 0 →
      (b - t ≤ c →
        create_performance_issue_if_degraded st b c t resp = Except.ok ⟨none, [], st⟩) ∧
      (c < b - t →
        create_performance_issue_if_degraded st b c t resp =
          Except.ok ⟨resp,
            [RemoteCall.createIssue (perfIssueTitle ((b - c) / b * 100))
              (perfIssueBody b c ((b - c) / b * 100))
              ["bug", "auto-generated", "priority-high"] ["GilbertKwak"]], st⟩)) ∧
    create_performance_issue_if_degraded stDue 1 (96 / 100) (5 / 100) (some 5) =
      Except.ok ⟨none, [], stDue⟩ ∧
    create_performance_issue_if_degraded stDue 1 (9 / 10) (5 / 100) (some 5) =
      Except.ok ⟨some 5,
        [RemoteCall.createIssue (perfIssueTitle 10) (perfIssueBody 1 (9 / 10) 10)
          ["bug", "auto-generated", "priority-high"] ["GilbertKwak"]], stDue⟩ ∧
    perfIssueTitle 10 = "⚠️ Performance Degradation Detected: 10.0% drop" := by
  refine ⟨?_, ?_, ?_, ?_⟩
  · intro st b c t resp hb
    constructor
    · intro h
      unfold create_performance_issue_if_degraded
      rw [if_pos h]
    · intro h
      unfold create_performance_issue_if_degraded
      rw [if_neg (not_le.mpr h), if_neg hb]
  · unfold create_performance_issue_if_degraded
    norm_num
  · unfold create_performance_issue_if_degraded
    norm_num
  · unfold perfIssueTitle
    norm_num [fmtFixed, qRound]
    decide

theorem degradation_issue_amended_witness :
    create_performance_issue_if_degraded stDue 1 (96 / 100) (5 / 100) (some 5) =
      Except.ok ⟨none, [], stDue⟩ :=
  (degradation_issue_amended.1 stDue 1 (96 / 100) (5 / 100) (some 5) (by norm_num)).1
    (by norm_num)

/-- Claim C5: when `should_commit()` is false (with a positive interval),
`commit_execution_log` returns absent and attempts no remote call at all. -/
theorem commit_log_skips (st : SyncState) (rn : Nat) (m : Metrics) (lc ts : String)
    (resp : Option String) (_hk : 0 < st.config.commit_interval)
    (h : should_commit st = false) :
    (commit_execution_log st rn m lc ts resp).ret = none ∧
      (commit_execution_log st rn m lc ts resp).calls = [] := by
  simp [commit_execution_log, h]

theorem commit_log_skips_witness :
    (commit_execution_log stNoAuto 7 [] "log" "2026-01-01T00:00:00" (some "abc")).ret = none ∧
      (commit_execution_log stNoAuto 7 [] "log" "2026-01-01T00:00:00" (some "abc")).calls = [] :=
  commit_log_skips stNoAuto 7 [] "log" "2026-01-01T00:00:00" (some "abc") (by decide) (by decide)

/-- Claim C6: when the dashboard file is absent, `update_performance_dashboard`
creates it with the header line followed by exactly one data row; when it
exists with content `content`, the file is updated to `content` followed
byte-for-byte by exactly one appended row (one more row than before); the
four numeric fields are zero-filled when missing from the metrics mapping. -/
theorem dashboard_upsert (st : SyncState) (m : Metrics) (ts content sha : String)
    (updResp crResp : Option String) (s : String) (hts : noNL ts)
    (hm : ∀ k v, m.lookup k = some v → noNL v) :
    ((update_performance_dashboard st m ts none updResp crResp).calls =
        [RemoteCall.getContents dashboardFile st.config.branch,
         RemoteCall.createFile dashboardFile "🆕 Initialize performance dashboard"
           (dashboardHeader ++ dashboardRow m ts) st.config.branch] ∧
      countRows (dashboardHeader ++ dashboardRow m ts) = 2) ∧
    (updResp = some s →
      (update_performance_dashboard st m ts (some (content, sha)) updResp crResp).ret = some s ∧
      (update_performance_dashboard st m ts (some (content, sha)) updResp crResp).calls =
        [RemoteCall.getContents dashboardFile st.config.branch,
         RemoteCall.updateFile dashboardFile ("📊 Update performance metrics: " ++ ts)
           (content ++ dashboardRow m ts) sha st.config.branch]) ∧
    countRows (content ++ dashboardRow m ts) = countRows content + 1 ∧
    dashboardRow [] ts = ts ++ ",0,0,0,0\n" := by
  refine ⟨⟨rfl, ?_⟩, ?_, ?_, dashboardRow_empty ts⟩
  · rw [countRows_append, countRows_dashboardHeader, countRows_dashboardRow m ts hts hm]
  · intro hu
    subst hu
    exact ⟨rfl, rfl⟩
  · rw [countRows_append, countRows_dashboardRow m ts hts hm]

theorem dashboard_upsert_witness :
    (update_performance_dashboard stDue [] "2026-01-01T00:00:00"
        (some ("timestamp,benchmark_score,token_usage,execution_time,forgetting_score\n", "sha1"))
        (some "c2") none).ret = some "c2" ∧
      countRows ("timestamp,benchmark_score,token_usage,execution_time,forgetting_score\n" ++
        dashboardRow [] "2026-01-01T00:00:00") = 2 :=
  ⟨((dashboard_upsert stDue [] "2026-01-01T00:00:00"
      "timestamp,benchmark_score,token_usage,execution_time,forgetting_score\n" "sha1"
      (some "c2") none "c2" (by decide) (fun k v h => Option.noConfusion h)).2.1 rfl).1,
   by
    rw [(dashboard_upsert stDue [] "2026-01-01T00:00:00"
      "timestamp,benchmark_score,token_usage,execution_time,forgetting_score\n" "sha1"
      (some "c2") none "c2" (by decide) (fun k v h => Option.noConfusion h)).2.2.1]
    decide⟩

/-- Claim C7: in `create_optimization_pull_request`, the first failing
remote step aborts the operation: the result is absent and no call after
the failing one is attempted (in particular a branch-ref-create failure
prevents the file read, file update, pull-request creation and review
request); prior calls stay in the trace — nothing is rolled back. -/
theorem pr_steps_abort (st : SyncState) (p : String) (impr : Metrics) (ts : String)
    (o : PrResponses) (tip : String) (ps : String × String) (upd : String) (prNum : Nat) :
    (o.getBranch = none →
      create_optimization_pull_request st p impr ts o =
        ⟨none, [RemoteCall.getBranch st.config.branch], st⟩) ∧
    (o.getBranch = some tip → o.createRef = none →
      create_optimization_pull_request st p impr ts o =
        ⟨none, [RemoteCall.getBranch st.config.branch,
          RemoteCall.createGitRef ("refs/heads/" ++ ("auto-optimize-" ++ ts)) tip], st⟩) ∧
    (o.getBranch = some tip → o.createRef = some () → o.readFile = none →
      (create_optimization_pull_request st p impr ts o).ret = none ∧
      (create_optimization_pull_request st p impr ts o).calls.length = 3) ∧
    (o.getBranch = some tip → o.createRef = some () → o.readFile = some ps →
      o.updateFile = none →
      (create_optimization_pull_request st p impr ts o).ret = none ∧
      (create_optimization_pull_request st p impr ts o).calls.length = 4) ∧
    (o.getBranch = some tip → o.createRef = some () → o.readFile = some ps →
      o.updateFile = some upd → o.createPull = none →
      (create_optimization_pull_request st p impr ts o).ret = none ∧
      (create_optimization_pull_request st p impr ts o).calls.length = 5) ∧
    (o.getBranch = some tip → o.createRef = some () → o.readFile = some ps →
      o.updateFile = some upd → o.createPull = some prNum → o.reviewRequest = none →
      (create_optimization_pull_request st p impr ts o).ret = none ∧
      (create_optimization_pull_request st p impr ts o).calls.length = 6) := by
  refine ⟨?_, ?_, ?_, ?_, ?_, ?_⟩
  · intro h1
    simp [create_optimization_pull_request, h1]
  · intro h1 h2
    simp [create_optimization_pull_request, h1, h2]
  · intro h1 h2 h3
    simp [create_optimization_pull_request, h1, h2, h3]
  · intro h1 h2 h3 h4
    simp [create_optimization_pull_request, h1, h2, h3, h4]
  · intro h1 h2 h3 h4 h5
    simp [create_optimization_pull_request, h1, h2, h3, h4, h5]
  · intro h1 h2 h3 h4 h5 h6
    simp [create_optimization_pull_request, h1, h2, h3, h4, h5, h6]

theorem pr_steps_abort_witness :
    create_optimization_pull_request stDue "<xml/>" [] "20260101_000000"
        ⟨some "tip0", none, none, none, none, none⟩ =
      ⟨none, [RemoteCall.getBranch "main",
        RemoteCall.createGitRef "refs/heads/auto-optimize-20260101_000000" "tip0"], stDue⟩ := by
  have h := (pr_steps_abort stDue "<xml/>" [] "20260101_000000"
    ⟨some "tip0", none, none, none, none, none⟩ "tip0" ("", "") "" 0).2.1 rfl rfl
  simpa using h

/-- Claim C8: `increment_run` called `m` times from a fresh counter of 0
returns `1, 2, ..., m` in order (the i-th call returns i) and leaves both
the in-memory and the persisted counter at `m`. -/
theorem increment_run_counts (st : SyncState) (m : Nat) (h0 : st.run_count = 0)
    (hf : st.counter_file = 0) :
    (incrementRuns m st).1 = List.range' 1 m ∧
      (incrementRuns m st).2.run_count = m ∧
      (incrementRuns m st).2.counter_file = m ∧
      ∀ i, i < m → (incrementRuns m st).1.getD i 0 = i + 1 := by
  obtain ⟨h1, h2, h3, _⟩ := incrementRuns_spec m st
  rw [h0] at h1 h2
  rw [h0, hf] at h3
  refine ⟨by simpa using h1, by simpa using h2, ?_, ?_⟩
  · rcases Nat.eq_zero_or_pos m with hm | hm
    · subst hm; simpa using h3
    · rw [if_neg (Nat.pos_iff_ne_zero.mp hm)] at h3; simpa using h3
  · intro i hi
    rw [h1]
    simp [List.getD, List.getElem?_range', hi]
    omega

theorem increment_run_counts_witness :
    (incrementRuns 3 ⟨cfgNoAuto, 0, 0⟩).1 = [1, 2, 3] ∧
      (incrementRuns 3 ⟨cfgNoAuto, 0, 0⟩).2.run_count = 3 := by
  have h := increment_run_counts ⟨cfgNoAuto, 0, 0⟩ 3 rfl rfl
  exact ⟨by rw [h.1]; decide, h.2.1⟩

/-- Claim C9: `commit_benchmark_results` is unconditional: for every state
(whatever the auto-commit flag and counter) it attempts exactly one remote
file-create at the timestamped path `benchmarks/results_<ts>.json`, returns
the platform response (the commit sha on success, absent on failure) and
leaves the state unchanged. -/
theorem benchmark_unconditional (st : SyncState) (res : Metrics) (ts : String)
    (resp : Option String) :
    (commit_benchmark_results st res ts resp).calls =
        [RemoteCall.createFile ("benchmarks/results_" ++ ts ++ ".json")
          (benchmarkMessage res) (jsonDumps res) st.config.branch] ∧
      (commit_benchmark_results st res ts resp).ret = resp ∧
      (commit_benchmark_results st res ts resp).state = st :=
  ⟨rfl, rfl, rfl⟩

/-- Claim C10: only `increment_run` modifies the run counter, and by exactly
one (persisting the same value and preserving the configuration); every
other operation leaves the whole controller state — counter, repository
identifier, branch, auto-commit flag, commit interval — unchanged, on
success and failure alike. -/
theorem frame_ops :
    (∀ st : SyncState, increment_run st =
      (st.run_count + 1,
        { st with run_count := st.run_count + 1, counter_file := st.run_count + 1 })) ∧
    (∀ (st : SyncState) (rn : Nat) (m : Metrics) (lc ts : String) (resp : Option String),
      (commit_execution_log st rn m lc ts resp).state = st) ∧
    (∀ (st : SyncState) (res : Metrics) (ts : String) (resp : Option String),
      (commit_benchmark_results st res ts resp).state = st) ∧
    (∀ (st : SyncState) (m : Metrics) (ts : String) (rr : Option (String × String))
      (ur cr : Option String), (update_performance_dashboard st m ts rr ur cr).state = st) ∧
    (∀ (st : SyncState) (b c t : ℚ) (resp : Option Nat) (r : OpResult (Option Nat)),
      create_performance_issue_if_degraded st b c t resp = Except.ok r → r.state = st) ∧
    (∀ (st : SyncState) (p : String) (impr : Metrics) (ts : String) (o : PrResponses),
      (create_optimization_pull_request st p impr ts o).state = st) := by
  refine ⟨fun st => rfl, ?_, fun st res ts resp => rfl, ?_, ?_, ?_⟩
  · intro st rn m lc ts resp
    unfold commit_execution_log
    split <;> rfl
  · intro st m ts rr ur cr
    unfold update_performance_dashboard
    rcases rr with _ | cs
    · rfl
    · rcases ur with _ | sha <;> rfl
  · intro st b c t resp r h
    unfold create_performance_issue_if_degraded at h
    split at h
    · cases h; rfl
    · split at h
      · cases h
      · cases h; rfl
  · intro st p impr ts o
    unfold create_optimization_pull_request
    rcases o with ⟨gb, cr, rf, uf, cp, rv⟩
    rcases gb with _ | tip
    · rfl
    rcases cr with _ | u
    · rfl
    rcases rf with _ | ps
    · rfl
    rcases uf with _ | upd
    · rfl
    rcases cp with _ | prNum
    · rfl
    rcases rv with _ | v <;> rfl

theorem frame_ops_witness :
    OpResult.state (α := Option Nat)
      ⟨some 5, [RemoteCall.createIssue (perfIssueTitle 10) (perfIssueBody 1 (9 / 10) 10)
        ["bug", "auto-generated", "priority-high"] ["GilbertKwak"]], stDue⟩ = stDue :=
  frame_ops.2.2.2.2.1 stDue 1 (9 / 10) (5 / 100) (some 5)
    ⟨some 5, [RemoteCall.createIssue (perfIssueTitle 10) (perfIssueBody 1 (9 / 10) 10)
      ["bug", "auto-generated", "priority-high"] ["GilbertKwak"]], stDue⟩
    (by unfold create_performance_issue_if_degraded; norm_num)
